import Mathlib

/-!
Shallow embedding of the training module of the dynamic-policy-anchoring
repository (src/ppo.py, class PolicyAnchoredPPO), and theorems settling the
specification claims about it.

Modelling conventions:
- Python floats are modelled as exact rationals, and as real numbers where
  transcendental functions occur, so all floating arithmetic is read as exact
  arithmetic.
- Python objects are aliased references: a policy value is a reference (a
  natural number) into an explicit heap `PPOState.heap` mapping references to
  parameter vectors.  `list.append(policy, ...)` stores the reference, exactly
  as Python does; an in-place optimizer step mutates the heap cell of the live
  policy reference.
- print and logger calls are I/O with no effect on trainer state; they are
  omitted from the state transformers.  The reward statistics computed by
  `detect_task_change` feed only such prints.
- Python `x // 1e6` on the integers reached in training is modelled exactly as
  `Int.fdiv x 1000000` (floor division).
- A Python exception (the IndexError raised by `self.good_policies[0]` on an
  empty list) is modelled by returning the error alongside the state that was
  already mutated before the raise, matching Python semantics where earlier
  attribute mutations persist.
-/

/-- Parameter vector of a policy network: the trainable state that an
optimizer step mutates in place. -/
abbrev Params := List ℚ

/-- Errors a modelled method can raise. -/
inductive PyError where
  | indexError
  deriving DecidableEq

/-- Mutable state of a PolicyAnchoredPPO trainer (the fields of src/ppo.py
relevant to the archive, the anchor and the task-change detector).
`good_policies` stores triples (policy reference, reward, timestep) exactly as
`self.good_policies` stores `(policy, reward, self.num_timesteps)`. -/
structure PPOState where
  heap : ℕ → Params
  policy : ℕ
  good_policies : List (ℕ × ℚ × ℕ)
  anchor_policy : Option ℕ
  anchor_policy_timestep : ℤ
  td_counter : ℕ
  previous_rewards : List ℚ
  episodic_rewards : List ℚ
  reward_grad_window : ℕ
  num_timesteps : ℕ
  n_steps : ℕ
  gp_threshold : ℚ
  gp_k : ℕ

/-- The comparison used by `self.good_policies.sort(key=lambda x: x[2],
reverse=True)`: descending order of the timestep component. -/
def gpOrder (a b : ℕ × ℚ × ℕ) : Prop := b.2.2 ≤ a.2.2

instance : DecidableRel gpOrder :=
  fun a b => inferInstanceAs (Decidable (b.2.2 ≤ a.2.2))

instance : IsTotal (ℕ × ℚ × ℕ) gpOrder :=
  ⟨fun a b => le_total b.2.2 a.2.2⟩

instance : IsTrans (ℕ × ℚ × ℕ) gpOrder :=
  ⟨fun _ _ _ hab hbc => le_trans hbc hab⟩

/-- Translation of `PolicyAnchoredPPO.update_good_policies` (src/ppo.py lines
437-449): if `reward >= self.gp_threshold or task_change`, append the policy
reference together with the reward and the current `num_timesteps`, sort by
timestep descending (Python sort is stable; `List.insertionSort` with this
total order is the same stable sort) and keep the first `gp_k` entries. -/
def update_good_policies (s : PPOState) (policyRef : ℕ) (reward : ℚ)
    (task_change : Bool) : PPOState :=
  if s.gp_threshold ≤ reward ∨ task_change = true then
    let appended := s.good_policies ++ [(policyRef, reward, s.num_timesteps)]
    let sorted := List.insertionSort gpOrder appended
    { s with good_policies := sorted.take s.gp_k }
  else
    s

/-- Translation of `PolicyAnchoredPPO.detect_task_change` (src/ppo.py lines
451-483).  If `previous_rewards` is empty the method returns at once.  The
mean and standard deviation of the previous rewards and the mean of the
current rewards are computed only for printing (I/O) and do not affect the
state, so they are omitted.  The trigger compares the million-step floor of
`num_timesteps` with that of `num_timesteps - n_steps`; on trigger the counter
is incremented and `good_policies[0]` is read: on an empty archive this is an
IndexError raised after the counter increment. -/
def detect_task_change (s : PPOState) (current_rewards : List ℚ) :
    PPOState × Option PyError :=
  if s.previous_rewards.length = 0 then
    (s, none)
  else if (s.num_timesteps : ℤ).fdiv 1000000 ≠
      ((s.num_timesteps : ℤ) - (s.n_steps : ℤ)).fdiv 1000000 then
    match s.good_policies with
    | [] => ({ s with td_counter := s.td_counter + 1 }, some PyError.indexError)
    | (r0, _, t0) :: _ =>
      ({ s with
          td_counter := s.td_counter + 1
          anchor_policy := some r0
          anchor_policy_timestep := (t0 : ℤ) }, none)
  else
    (s, none)

/-- Arithmetic mean of a list of rationals, as numpy mean computes it (the
callers guard against the empty list). -/
def listMeanQ (l : List ℚ) : ℚ := l.sum / (l.length : ℚ)

/-- Append on a deque with maximum length `cap`: the oldest entries are
dropped once the capacity is exceeded. -/
def dequeAppend (cap : ℕ) (l : List ℚ) (x : ℚ) : List ℚ :=
  let l2 := l ++ [x]
  l2.drop (l2.length - cap)

/-- Translation of the task-change block of `PolicyAnchoredPPO.train`
(src/ppo.py lines 380-391): only when the episode-info buffer is non-empty,
compute the accumulated mean reward, push it on `episodic_rewards`, run the
detector, cache `previous_rewards`, and offer the live policy to the archive.
An exception from the detector propagates out of `train`. -/
def train_task_change_block (s : PPOState) (ep_info_rewards : List ℚ) :
    PPOState × Option PyError :=
  if ep_info_rewards.length ≠ 0 then
    let accumulated := listMeanQ ep_info_rewards
    let s1 : PPOState :=
      { s with episodic_rewards :=
          dequeAppend s.reward_grad_window s.episodic_rewards accumulated }
    match detect_task_change s1 ep_info_rewards with
    | (s2, some e) => (s2, some e)
    | (s2, none) =>
      let s3 : PPOState := { s2 with previous_rewards := ep_info_rewards }
      (update_good_policies s3 s3.policy accumulated false, none)
  else
    (s, none)

/-- Model of an in-place parameter update of the live policy object (the
`loss.backward()`; `optimizer.step()` sequence in `train`): the heap cell of
the live policy reference is overwritten, every other reference is uneffected. -/
def mutate_policy (s : PPOState) (f : Params → Params) : PPOState :=
  { s with heap := fun i => if i = s.policy then f (s.heap i) else s.heap i }

/-- Model of the external Policy Capability used by the anchor penalty: a
policy maps an observation to the vector of per-action log-probabilities
(spec sections 4.2 and 6; the network itself is an external collaborator of
the repository, so it is modelled from the spec contract). -/
abbrev PolicyFn := ℕ → List ℝ

/-- Mean of a two-dimensional tensor: `th.mean` averages over all entries of
the tensor, not per row. -/
noncomputable def tensorMean2 (xss : List (List ℝ)) : ℝ :=
  xss.flatten.sum / (xss.flatten.length : ℝ)

/-- Translation of the anchor-penalty computation in `PolicyAnchoredPPO.train`
(src/ppo.py lines 279-298): when no anchor is set the penalty tensor is the
scalar 0.0; when an anchor is set, both policies are evaluated on the sampled
states (the random index draw is external, so the sampled states are a
parameter), the anchor probabilities are `th.exp` of its log-probabilities,
and the penalty is `th.mean(anchor_probs * (anchor_log_probs -
curr_log_probs))` over the whole tensor. -/
noncomputable def anchor_policy_kl_div (anchor : Option PolicyFn)
    (curr : PolicyFn) (sampled_states : List ℕ) : ℝ :=
  match anchor with
  | none => 0
  | some ap =>
    let anchor_log_probs := sampled_states.map ap
    let curr_log_probs := sampled_states.map curr
    tensorMean2 (List.zipWith
      (fun la lc => List.zipWith (fun a c => Real.exp a * (a - c)) la lc)
      anchor_log_probs curr_log_probs)

/-- Modelled from the spec, for comparison with the code: the penalty as the
spec words it, the mean over the sampled states of the sum over actions of
the anchor probability times the log-probability gap. -/
noncomputable def spec_anchor_penalty (ap curr : PolicyFn)
    (sampled_states : List ℕ) : ℝ :=
  (sampled_states.map
    (fun st => (List.zipWith (fun a c => Real.exp a * (a - c)) (ap st) (curr st)).sum)).sum
    / (sampled_states.length : ℝ)

/-- A two-action policy assigning log-probability 0 to both actions of every
observation. -/
def apTwo : PolicyFn := fun _ => [0, 0]

/-- A two-action policy assigning log-probability -1 to both actions of every
observation. -/
def currTwo : PolicyFn := fun _ => [-1, -1]

/-- Translation of `th.clamp(x, lo, hi)`. -/
def torchClamp (x lo hi : ℚ) : ℚ := min (max x lo) hi

/-- Per-sample `policy_loss_1 = advantages * ratio` (src/ppo.py line 301),
with the probability ratio abstracted as an input. -/
def policy_loss_1 (advantages r : ℚ) : ℚ := advantages * r

/-- Per-sample `policy_loss_2 = advantages * th.clamp(ratio, 1 - clip_range,
1 + clip_range)` (src/ppo.py lines 302-304). -/
def policy_loss_2 (advantages r clip_range : ℚ) : ℚ :=
  advantages * torchClamp r (1 - clip_range) (1 + clip_range)

/-- Per-sample clipped surrogate `th.min(policy_loss_1, policy_loss_2)`. -/
def clipped_surrogate (advantages r clip_range : ℚ) : ℚ :=
  min (policy_loss_1 advantages r) (policy_loss_2 advantages r clip_range)

/-- Per-sample unreduced policy-loss term `-th.min(policy_loss_1,
policy_loss_2) + anchor_pol_kl_coef * anchor_policy_kl_div` (src/ppo.py lines
305-308), before the mean reduction. -/
def per_sample_policy_loss (advantages r clip_range kl_coef kl : ℚ) : ℚ :=
  -(clipped_surrogate advantages r clip_range) + kl_coef * kl

/-- Errors raised by the constructor validation. -/
inductive InitError where
  | batch_size_assert
  | buffer_size_assert
  deriving DecidableEq

/-- Translation of the constructor validation of `PolicyAnchoredPPO.__init__`
(src/ppo.py lines 159-183): assert `batch_size > 1` when advantage
normalization is on; when an environment is present, assert `buffer_size =
n_envs * n_steps > 1` unless normalization is off, and warn (non-fatally)
when the buffer size is not a multiple of the minibatch size.  The returned
boolean is the warning flag. -/
def init_validate (normalize_advantage : Bool) (batch_size : ℕ)
    (env_n_envs : Option ℕ) (n_steps : ℕ) : Except InitError Bool :=
  if normalize_advantage = true ∧ batch_size ≤ 1 then
    Except.error InitError.batch_size_assert
  else
    match env_n_envs with
    | some n_envs =>
      let buffer_size := n_envs * n_steps
      if ¬(buffer_size > 1 ∨ normalize_advantage = false) then
        Except.error InitError.buffer_size_assert
      else
        Except.ok (decide (buffer_size % batch_size > 0))
    | none => Except.ok false

/-- Mean of a list of reals. -/
noncomputable def listMeanR (l : List ℝ) : ℝ := l.sum / (l.length : ℝ)

/-- Unbiased standard deviation as `torch.std` computes it: the square root
of the sum of squared deviations divided by length minus one. -/
noncomputable def listStdR (l : List ℝ) : ℝ :=
  Real.sqrt ((l.map (fun a => (a - listMeanR l) ^ 2)).sum / ((l.length : ℝ) - 1))

/-- Translation of the advantage-normalization step of
`PolicyAnchoredPPO.train` (src/ppo.py lines 267-273): normalization runs only
when it is enabled and the minibatch has more than one element, otherwise the
raw advantages are used. -/
noncomputable def normalize_advantages (normalize_advantage : Bool)
    (advantages : List ℝ) : List ℝ :=
  if normalize_advantage = true ∧ 1 < advantages.length then
    advantages.map
      (fun a => (a - listMeanR advantages) / (listStdR advantages + 1 / 100000000))
  else
    advantages

/-- Result of the epoch/minibatch update loop of `train`: the final policy
parameters, the number of epoch passes counted by `_n_updates`, and the epoch
index reported when the KL early stop fires. -/
structure UpdateResult (P : Type) where
  params : P
  n_updates : ℕ
  stop_epoch : Option ℕ
  deriving DecidableEq

/-- Translation of the minibatch loop of `PolicyAnchoredPPO.train` (src/ppo.py
lines 257-370), control skeleton: `kl` is the approximate KL computed from the
current parameters on a minibatch, `gradStep` the opaque optimization step
(backward, global-norm clipping at `max_grad_norm`, optimizer step).  The
early-stop check `target_kl is not None and approx_kl_div > 1.5 * target_kl`
is evaluated before the optimization step and breaks out of the minibatch
loop. -/
def processBatches {P MB : Type} (kl : P → MB → ℚ) (gradStep : P → MB → P)
    (target_kl : Option ℚ) : List MB → P → P × Bool
  | [], p => (p, true)
  | mb :: rest, p =>
    match target_kl with
    | some t =>
      if 3 / 2 * t < kl p mb then (p, false)
      else processBatches kl gradStep (some t) rest (gradStep p mb)
    | none => processBatches kl gradStep none rest (gradStep p mb)

/-- Translation of the epoch loop of `PolicyAnchoredPPO.train` (src/ppo.py
lines 254-374): epochs run in order; `_n_updates` is incremented once per
epoch pass, including the pass aborted by the early stop; when a pass aborts,
no further epoch runs and the aborting epoch index is reported. -/
def trainLoopAux {P MB : Type} (kl : P → MB → ℚ) (gradStep : P → MB → P)
    (target_kl : Option ℚ) (batches : ℕ → List MB) :
    ℕ → ℕ → P → ℕ → UpdateResult P
  | 0, _, p, nu => ⟨p, nu, none⟩
  | n + 1, e, p, nu =>
    let pb := processBatches kl gradStep target_kl (batches e) p
    if pb.2 then trainLoopAux kl gradStep target_kl batches n (e + 1) pb.1 (nu + 1)
    else ⟨pb.1, nu + 1, some e⟩

/-- The whole update loop of one `train` call: `n_epochs` epochs starting at
epoch index 0 with `_n_updates` delta 0. -/
def train_update_loop {P MB : Type} (kl : P → MB → ℚ) (gradStep : P → MB → P)
    (target_kl : Option ℚ) (batches : ℕ → List MB) (n_epochs : ℕ) (p0 : P) :
    UpdateResult P :=
  trainLoopAux kl gradStep target_kl batches n_epochs 0 p0 0

/-- A kl estimate that always exceeds every reasonable threshold. -/
def cexKl : ℕ → Unit → ℚ := fun _ _ => 10

/-- A gradient step that is observable: it increments the parameter. -/
def cexStep : ℕ → Unit → ℕ := fun p _ => p + 1

/-- One minibatch per epoch. -/
def cexBatches : ℕ → List Unit := fun _ => [()]

/-- The heap in which every policy reference holds the parameter vector [0]. -/
def zeroHeap : ℕ → Params := fun _ => [0]

/-- A trainer state just after the rollout that carries `num_timesteps` over
the million boundary: the live policy is reference 0 with parameters [0], the
archive is empty, one previous reward is cached, `gp_threshold` is 5 and
`gp_k` is 5. -/
def baseState : PPOState where
  heap := zeroHeap
  policy := 0
  good_policies := []
  anchor_policy := none
  anchor_policy_timestep := -1
  td_counter := 0
  previous_rewards := [1]
  episodic_rewards := []
  reward_grad_window := 196
  num_timesteps := 1000312
  n_steps := 512
  gp_threshold := 5
  gp_k := 5

/-- `baseState` with a non-empty archive (one record of another reference). -/
def tdState1 : PPOState := { baseState with good_policies := [(3, 1, 42)] }

/-- `tdState1` one iteration later, inside the same million-step band. -/
def tdState2 : PPOState := { tdState1 with num_timesteps := 1000824 }

/-- `tdState1` with different cached previous rewards. -/
def tdState1b : PPOState := { tdState1 with previous_rewards := [3, 4] }

/-- `baseState` with an empty previous-rewards cache. -/
def tdStateEmptyPrev : PPOState := { baseState with previous_rewards := [] }

/-- A state for the train-block counterexample: archive non-empty, threshold
high enough that the iteration mean is not admitted. -/
def blockState : PPOState :=
  { baseState with good_policies := [(5, 1, 7)], gp_threshold := 100 }

/-- Start state of the archive admission/retention scenario of the spec:
`gp_threshold = 0.5`, `gp_k = 2`, empty archive. -/
def gpState0 : PPOState :=
  { baseState with gp_threshold := 1 / 2, gp_k := 2, num_timesteps := 100 }

/-- Scenario state after the call with reward 0.3 at timestep 100. -/
def gpState1 : PPOState :=
  { update_good_policies gpState0 0 (3 / 10) false with num_timesteps := 200 }

/-- Scenario state after the call with reward 0.6 at timestep 200. -/
def gpState2 : PPOState :=
  { update_good_policies gpState1 0 (3 / 5) false with num_timesteps := 300 }

/-- Scenario state after the call with reward 0.7 at timestep 300. -/
def gpState3 : PPOState :=
  { update_good_policies gpState2 0 (7 / 10) false with num_timesteps := 400 }

/-- Final archive of the scenario, after the call with reward 0.9 at
timestep 400. -/
def gpFinal : List (ℕ × ℚ × ℕ) :=
  (update_good_policies gpState3 0 (9 / 10) false).good_policies

/-- The state reached from `baseState` by admitting the live policy to the
archive with reward 9 and then running the detector over the million-step
boundary, which installs the anchor. -/
def anchoredState : PPOState :=
  (detect_task_change (update_good_policies baseState baseState.policy 9 false) [1]).1

/-- `anchoredState` after one further in-place gradient update of the live
policy (every parameter overwritten with 1). -/
def mutatedState : PPOState :=
  mutate_policy anchoredState (fun p => p.map (fun _ => 1))

/-- The archive update never touches the task-change counter. -/
theorem update_good_policies_td_counter (s : PPOState) (p : ℕ) (reward : ℚ)
    (fl : Bool) : (update_good_policies s p reward fl).td_counter = s.td_counter := by
  unfold update_good_policies
  split <;> rfl

/-- On a non-empty previous-rewards cache, the detector increments the
task-change counter exactly when the million-step floor changed. -/
theorem detect_td_counter_eq (s : PPOState) (cur : List ℚ)
    (h : s.previous_rewards ≠ []) :
    (detect_task_change s cur).1.td_counter =
      if (s.num_timesteps : ℤ).fdiv 1000000 ≠
          ((s.num_timesteps : ℤ) - (s.n_steps : ℤ)).fdiv 1000000
      then s.td_counter + 1 else s.td_counter := by
  unfold detect_task_change
  rw [if_neg (by simpa using h)]
  by_cases hc : (s.num_timesteps : ℤ).fdiv 1000000 ≠
      ((s.num_timesteps : ℤ) - (s.n_steps : ℤ)).fdiv 1000000
  · rw [if_pos hc, if_pos hc]
    cases hg : s.good_policies with
    | nil => rfl
    | cons a tl =>
      rcases a with ⟨r0, rw0, t0⟩
      rfl
  · rw [if_neg hc, if_neg hc]

/-- The counter after the train task-change block equals the counter after
the detector run inside it. -/
theorem train_block_td_counter (s : PPOState) (ep : List ℚ)
    (hep : ep.length ≠ 0) :
    (train_task_change_block s ep).1.td_counter =
      (detect_task_change
        { s with episodic_rewards :=
            dequeAppend s.reward_grad_window s.episodic_rewards (listMeanQ ep) }
        ep).1.td_counter := by
  simp only [train_task_change_block]
  generalize detect_task_change _ ep = dres
  rcases dres with ⟨s2, eo⟩
  cases eo with
  | none =>
    rw [if_pos hep]
    simp [update_good_policies_td_counter]
  | some err =>
    rw [if_pos hep]

/-- Claim C10: a call to the archive consider operation with a reward below
the threshold and the task-change flag false is a complete no-op: the whole
trainer state, archive included, is returned exactly unchanged. -/
theorem below_threshold_noop (s : PPOState) (p : ℕ) (reward : ℚ)
    (h : reward < s.gp_threshold) :
    update_good_policies s p reward false = s := by
  have hc : ¬(s.gp_threshold ≤ reward ∨ false = true) := by
    simp only [Bool.false_eq_true, or_false, not_le]
    exact h
  unfold update_good_policies
  rw [if_neg hc]

/-- Witness for below_threshold_noop at a concrete state and reward. -/
theorem below_threshold_noop_witness :
    (3 : ℚ) < baseState.gp_threshold ∧
    update_good_policies baseState 0 3 false = baseState :=
  ⟨by decide, below_threshold_noop baseState 0 3 (by decide)⟩

/-- Claim C2: on a detector call whose million-step trigger fires while the
archive is empty (previous rewards cached, boundary crossed), the code does
not complete silently: reading good_policies[0] raises an IndexError, after
the task-change counter was already incremented; only the anchor itself is
left unchanged.  This exhibits the failure of the claim on the code. -/
theorem empty_archive_trigger_raises :
    (detect_task_change baseState [0]).2 = some PyError.indexError ∧
    (detect_task_change baseState [0]).1.td_counter = baseState.td_counter + 1 ∧
    (detect_task_change baseState [0]).1.anchor_policy = baseState.anchor_policy := by
  refine ⟨?_, ?_, ?_⟩ <;> decide

/-- Claim C1: the snapshots are not deep copies.  The admission appends the
live policy reference itself and the trigger installs that same reference as
the anchor, so an in-place gradient update of the live policy (parameters
[0] becoming [1]) is observable through the archived record and through the
anchor: both read [1] after the mutation although [0] was current at
admission time. -/
theorem snapshot_aliasing_observable :
    (update_good_policies baseState baseState.policy 9 false).good_policies
      = [(0, 9, 1000312)] ∧
    anchoredState.anchor_policy = some 0 ∧
    anchoredState.policy = 0 ∧
    anchoredState.heap 0 = [0] ∧
    mutatedState.heap 0 = [1] := by
  refine ⟨?_, ?_, ?_, ?_, ?_⟩ <;> decide

/-- Claim C4, amended: on every detector call with a non-empty
previous-rewards cache, a task change is declared (the counter is
incremented) exactly when the million-step floor of num_timesteps differs
from that of num_timesteps - n_steps; concretely, with n_steps = 512, the
call at num_timesteps = 1000312 (coming from 999800) triggers exactly once
and the following call at 1000824 does not trigger. -/
theorem trigger_condition_characterization :
    (∀ (s : PPOState) (cur : List ℚ), s.previous_rewards ≠ [] →
        ((detect_task_change s cur).1.td_counter = s.td_counter + 1 ↔
          (s.num_timesteps : ℤ).fdiv 1000000 ≠
            ((s.num_timesteps : ℤ) - (s.n_steps : ℤ)).fdiv 1000000)) ∧
    (detect_task_change tdState1 [1]).1.td_counter = 1 ∧
    (detect_task_change tdState2 [1]).1.td_counter = 0 := by
  refine ⟨fun s cur h => ?_, by decide, by decide⟩
  rw [detect_td_counter_eq s cur h]
  by_cases hc : (s.num_timesteps : ℤ).fdiv 1000000 ≠
      ((s.num_timesteps : ℤ) - (s.n_steps : ℤ)).fdiv 1000000
  · simp [hc]
  · rw [if_neg hc]
    constructor
    · intro h2
      exact absurd h2 (by omega)
    · intro h2
      exact absurd h2 hc

/-- Witness for trigger_condition_characterization at a concrete state. -/
theorem trigger_condition_characterization_witness :
    tdState1.previous_rewards ≠ [] ∧
    ((detect_task_change tdState1 [1]).1.td_counter = tdState1.td_counter + 1 ↔
      (tdState1.num_timesteps : ℤ).fdiv 1000000 ≠
        ((tdState1.num_timesteps : ℤ) - (tdState1.n_steps : ℤ)).fdiv 1000000) :=
  ⟨by decide, trigger_condition_characterization.1 tdState1 [1] (by decide)⟩

/-- Counterexample to claim C4 as stated: at a state whose previous-rewards
cache is empty, the million-step floors differ and yet no task change is
declared, so the if-and-only-if of the claim fails on this call. -/
theorem trigger_iff_fails_on_empty_cache :
    ¬(((detect_task_change tdStateEmptyPrev [2]).1.td_counter
          = tdStateEmptyPrev.td_counter + 1) ↔
      ((tdStateEmptyPrev.num_timesteps : ℤ).fdiv 1000000 ≠
        ((tdStateEmptyPrev.num_timesteps : ℤ) - (tdStateEmptyPrev.n_steps : ℤ)).fdiv 1000000)) := by
  decide

/-- Claim C5, amended: when the previous-rewards cache is non-empty on both
calls, the trigger decision is a function of num_timesteps and n_steps
alone: two calls agreeing on those fields decide identically, whatever the
current episode returns and whatever values the caches hold. -/
theorem trigger_decision_reward_independent (s1 s2 : PPOState)
    (cur1 cur2 : List ℚ)
    (hts : s1.num_timesteps = s2.num_timesteps) (hns : s1.n_steps = s2.n_steps)
    (h1 : s1.previous_rewards ≠ []) (h2 : s2.previous_rewards ≠ []) :
    ((detect_task_change s1 cur1).1.td_counter = s1.td_counter + 1 ↔
      (detect_task_change s2 cur2).1.td_counter = s2.td_counter + 1) := by
  rw [detect_td_counter_eq s1 cur1 h1, detect_td_counter_eq s2 cur2 h2, hts, hns]
  by_cases hc : (s2.num_timesteps : ℤ).fdiv 1000000 ≠
      ((s2.num_timesteps : ℤ) - (s2.n_steps : ℤ)).fdiv 1000000
  · simp [hc]
  · rw [if_neg hc, if_neg hc]
    constructor <;> intro h2 <;> exact absurd h2 (by omega)

/-- Witness for trigger_decision_reward_independent: two states differing in
both reward lists decide identically. -/
theorem trigger_decision_reward_independent_witness :
    tdState1.num_timesteps = tdState1b.num_timesteps ∧
    tdState1.n_steps = tdState1b.n_steps ∧
    tdState1.previous_rewards ≠ [] ∧ tdState1b.previous_rewards ≠ [] ∧
    ((detect_task_change tdState1 [5]).1.td_counter = tdState1.td_counter + 1 ↔
      (detect_task_change tdState1b [7, 8]).1.td_counter = tdState1b.td_counter + 1) :=
  ⟨rfl, rfl, by decide, by decide,
    trigger_decision_reward_independent tdState1 tdState1b [5] [7, 8] rfl rfl
      (by decide) (by decide)⟩

/-- Counterexample to claim C5 as stated: the per-iteration train block skips
the detector entirely when the episode-info list is empty, so two iterations
with identical num_timesteps and n_steps decide differently depending on the
emptiness of the episode returns (counter stays 0 versus becomes 1). -/
theorem detector_depends_on_returns_emptiness :
    (train_task_change_block blockState []).1.td_counter = 0 ∧
    (train_task_change_block blockState [0]).1.td_counter = 1 := by
  constructor
  · simp [train_task_change_block, blockState, baseState]
  · rw [train_block_td_counter blockState [0] (by decide)]
    rw [detect_td_counter_eq _ _ (by decide)]
    decide

/-- Claim C6: the archive admits exactly on `reward ≥ threshold or flag`;
after every admission it is sorted by timestep descending and truncated to
`gp_k`, so its length never exceeds `gp_k`; and the spec scenario with
threshold 0.5 and capacity 2 ends with exactly the records at timesteps 400
and 300, in that order. -/
theorem archive_admission_retention :
    (∀ (s : PPOState) (p : ℕ) (reward : ℚ) (flag : Bool),
        s.gp_threshold ≤ reward ∨ flag = true →
        List.Sorted gpOrder (update_good_policies s p reward flag).good_policies ∧
        (update_good_policies s p reward flag).good_policies.length
          = min s.gp_k (s.good_policies.length + 1)) ∧
    (∀ (s : PPOState) (p : ℕ) (reward : ℚ) (flag : Bool),
        ¬(s.gp_threshold ≤ reward ∨ flag = true) →
        update_good_policies s p reward flag = s) ∧
    (∀ (s : PPOState) (p : ℕ) (reward : ℚ) (flag : Bool),
        s.good_policies.length ≤ s.gp_k →
        (update_good_policies s p reward flag).good_policies.length ≤ s.gp_k) ∧
    gpFinal = [(0, 9 / 10, 400), (0, 7 / 10, 300)] := by
  refine ⟨fun s p reward flag h => ?_, fun s p reward flag h => ?_,
    fun s p reward flag h => ?_, ?_⟩
  · unfold update_good_policies
    rw [if_pos h]
    refine ⟨List.Pairwise.sublist (List.take_sublist _ _)
      (List.sorted_insertionSort gpOrder _), ?_⟩
    simp [List.length_take, List.length_insertionSort]
  · unfold update_good_policies
    rw [if_neg h]
  · by_cases hcond : s.gp_threshold ≤ reward ∨ flag = true
    · unfold update_good_policies
      rw [if_pos hcond]
      simp only [List.length_take]
      exact le_trans (min_le_left _ _) le_rfl
    · unfold update_good_policies
      rw [if_neg hcond]
      exact h
  · simp only [gpFinal, gpState3, gpState2, gpState1, gpState0]
    norm_num [update_good_policies, baseState, gpOrder, List.insertionSort,
      List.orderedInsert]

/-- Witness for archive_admission_retention: the general parts applied at a
concrete admission. -/
theorem archive_admission_retention_witness :
    (baseState.gp_threshold ≤ 9 ∨ false = true) ∧
    (List.Sorted gpOrder (update_good_policies baseState 0 9 false).good_policies ∧
      (update_good_policies baseState 0 9 false).good_policies.length
        = min baseState.gp_k (baseState.good_policies.length + 1)) ∧
    baseState.good_policies.length ≤ baseState.gp_k ∧
    (update_good_policies baseState 0 9 false).good_policies.length ≤ baseState.gp_k :=
  ⟨by decide, archive_admission_retention.1 baseState 0 9 false (by decide),
    by decide, archive_admission_retention.2.2.1 baseState 0 9 false (by decide)⟩

/-- Claim C7, amended: the early-stop check precedes the gradient step.  When
a minibatch KL estimate exceeds 1.5 times target_kl, that minibatch gradient
step is NOT applied and the remaining minibatches of the pass are skipped;
every minibatch processed without triggering the stop receives exactly one
gradient step; and when a pass aborts, n_updates still counts it, no further
epoch runs and the aborting epoch index is reported. -/
theorem update_loop_early_stop_semantics :
    (∀ (P MB : Type) (kl : P → MB → ℚ) (gradStep : P → MB → P) (t : ℚ)
        (mb : MB) (rest : List MB) (p : P),
        3 / 2 * t < kl p mb →
        processBatches kl gradStep (some t) (mb :: rest) p = (p, false)) ∧
    (∀ (P MB : Type) (kl : P → MB → ℚ) (gradStep : P → MB → P)
        (tkl : Option ℚ) (mb : MB) (rest : List MB) (p : P),
        (∀ t, tkl = some t → ¬(3 / 2 * t < kl p mb)) →
        processBatches kl gradStep tkl (mb :: rest) p
          = processBatches kl gradStep tkl rest (gradStep p mb)) ∧
    (∀ (P MB : Type) (kl : P → MB → ℚ) (gradStep : P → MB → P)
        (tkl : Option ℚ) (batches : ℕ → List MB) (n e nu : ℕ) (p pf : P),
        processBatches kl gradStep tkl (batches e) p = (pf, false) →
        trainLoopAux kl gradStep tkl batches (n + 1) e p nu
          = ⟨pf, nu + 1, some e⟩) := by
  refine ⟨fun P MB kl gradStep t mb rest p h => ?_,
    fun P MB kl gradStep tkl mb rest p h => ?_,
    fun P MB kl gradStep tkl batches n e nu p pf h => ?_⟩
  · simp only [processBatches]
    rw [if_pos h]
  · cases tkl with
    | none => simp only [processBatches]
    | some t =>
      simp only [processBatches]
      rw [if_neg (h t rfl)]
  · simp only [trainLoopAux, h]
    simp

/-- Witness for update_loop_early_stop_semantics at concrete instances. -/
theorem update_loop_early_stop_semantics_witness :
    (3 / 2 * 1 < cexKl 0 () ∧
      processBatches cexKl cexStep (some 1) [()] 0 = (0, false)) ∧
    processBatches cexKl cexStep (some 10) [()] 5
      = processBatches cexKl cexStep (some 10) [] (cexStep 5 ()) ∧
    trainLoopAux cexKl cexStep (some 1) cexBatches 2 0 0 0 = ⟨0, 1, some 0⟩ :=
  ⟨⟨by norm_num [cexKl],
    update_loop_early_stop_semantics.1 ℕ Unit cexKl cexStep 1 () [] 0
      (by norm_num [cexKl])⟩,
   update_loop_early_stop_semantics.2.1 ℕ Unit cexKl cexStep (some 10) () [] 5
     (by
       intro t ht
       injection ht with ht10
       subst ht10
       norm_num [cexKl]),
   update_loop_early_stop_semantics.2.2 ℕ Unit cexKl cexStep (some 1)
     cexBatches 1 0 0 0 0
     (by
       simp only [cexBatches, processBatches]
       rw [if_pos (by norm_num [cexKl])])⟩

/-- Counterexample to claim C7 as stated: every minibatch has KL estimate 10
against target_kl 1, so the very first minibatch triggers the stop; the final
parameters are the initial ones (0), showing the aborting minibatch gradient
step (which would have produced 1) was never applied, while the stop is
reported at epoch 0 with one counted epoch pass. -/
theorem early_stop_skips_gradient_step :
    train_update_loop cexKl cexStep (some 1) cexBatches 2 0 = ⟨0, 1, some 0⟩ ∧
    cexStep 0 () = 1 := by
  constructor
  · have h1 : processBatches cexKl cexStep (some 1) (cexBatches 0) (0 : ℕ)
        = (0, false) := by
      simp only [cexBatches, processBatches]
      rw [if_pos (by norm_num [cexKl])]
    simp only [train_update_loop, trainLoopAux, h1]
    simp
  · rfl

/-- Claim C8: inside the trust region the clipped surrogate equals the
unclipped surrogate, outside it is bounded by the clipped ratio times the
advantage, and the spec end-to-end instance evaluates to -1.2. -/
theorem clipped_surrogate_properties :
    (∀ (e r A : ℚ), |r - 1| ≤ e → clipped_surrogate A r e = A * r) ∧
    (∀ (e r A : ℚ), e < |r - 1| →
        clipped_surrogate A r e ≤ torchClamp r (1 - e) (1 + e) * A) ∧
    per_sample_policy_loss 1 (3 / 2) (1 / 5) (1 / 10) 0 = -(6 / 5) := by
  refine ⟨fun e r A h => ?_, fun e r A h => ?_, ?_⟩
  · have hlo : 1 - e ≤ r := by linarith [(abs_le.mp h).1]
    have hhi : r ≤ 1 + e := by linarith [(abs_le.mp h).2]
    unfold clipped_surrogate policy_loss_1 policy_loss_2 torchClamp
    rw [max_eq_left hlo, min_eq_left hhi, min_self]
  · unfold clipped_surrogate policy_loss_2
    rw [mul_comm (torchClamp r (1 - e) (1 + e)) A]
    exact min_le_right (policy_loss_1 A r) (A * torchClamp r (1 - e) (1 + e))
  · norm_num [per_sample_policy_loss, clipped_surrogate, policy_loss_1,
      policy_loss_2, torchClamp, min_def, max_def]

/-- Witness for clipped_surrogate_properties at concrete ratios inside and
outside the trust region. -/
theorem clipped_surrogate_properties_witness :
    (|(11 / 10 : ℚ) - 1| ≤ 1 / 5 ∧ clipped_surrogate 2 (11 / 10) (1 / 5) = 2 * (11 / 10)) ∧
    ((1 / 5 : ℚ) < |(3 / 2 : ℚ) - 1| ∧
      clipped_surrogate 1 (3 / 2) (1 / 5) ≤ torchClamp (3 / 2) (1 - 1 / 5) (1 + 1 / 5) * 1) :=
  ⟨⟨by rw [abs_le]; constructor <;> norm_num,
    clipped_surrogate_properties.1 (1 / 5) (11 / 10) 2
      (by rw [abs_le]; constructor <;> norm_num)⟩,
   ⟨by rw [lt_abs]; left; norm_num,
    clipped_surrogate_properties.2.1 (1 / 5) (3 / 2) 1
      (by rw [lt_abs]; left; norm_num)⟩⟩

/-- Claim C9: construction fails fast when normalization is enabled and the
batch size is at most 1, or when the buffer size n_envs times n_steps is at
most 1; a buffer size not divisible by the batch size only sets the non-fatal
warning flag; and during the update, a minibatch of size exactly 1 skips
advantage normalization without raising and keeps its raw advantages. -/
theorem config_validation_and_norm_skip :
    (∀ (bs : ℕ) (oenv : Option ℕ) (ns : ℕ), bs ≤ 1 →
        init_validate true bs oenv ns = Except.error InitError.batch_size_assert) ∧
    (∀ (bs ne ns : ℕ), 1 < bs → ne * ns ≤ 1 →
        init_validate true bs (some ne) ns = Except.error InitError.buffer_size_assert) ∧
    (∀ (bs ne ns : ℕ), 1 < bs → 1 < ne * ns → ne * ns % bs ≠ 0 →
        init_validate true bs (some ne) ns = Except.ok true) ∧
    (∀ (b : Bool) (adv : List ℝ), adv.length = 1 →
        normalize_advantages b adv = adv) := by
  refine ⟨fun bs oenv ns h => ?_, fun bs ne ns hbs hbuf => ?_,
    fun bs ne ns hbs hbuf hmod => ?_, fun b adv hlen => ?_⟩
  · unfold init_validate
    rw [if_pos ⟨rfl, h⟩]
  · unfold init_validate
    rw [if_neg (by simp; omega)]
    change (if ¬(ne * ns > 1 ∨ true = false) then
        Except.error InitError.buffer_size_assert
      else Except.ok (decide (ne * ns % bs > 0))) = _
    rw [if_pos (by simp [not_lt.mpr hbuf])]
  · unfold init_validate
    rw [if_neg (by simp; omega)]
    change (if ¬(ne * ns > 1 ∨ true = false) then
        Except.error InitError.buffer_size_assert
      else Except.ok (decide (ne * ns % bs > 0))) = _
    rw [if_neg (fun hcon => hcon (Or.inl hbuf))]
    simp [Nat.pos_of_ne_zero hmod]
  · unfold normalize_advantages
    rw [if_neg (fun hcon => by rw [hlen] at hcon; exact lt_irrefl 1 hcon.2)]

/-- Witness for config_validation_and_norm_skip at concrete configurations. -/
theorem config_validation_and_norm_skip_witness :
    ((1 : ℕ) ≤ 1 ∧
      init_validate true 1 (some 1) 512 = Except.error InitError.batch_size_assert) ∧
    ((1 : ℕ) < 2 ∧ 1 * 1 ≤ 1 ∧
      init_validate true 2 (some 1) 1 = Except.error InitError.buffer_size_assert) ∧
    ((1 : ℕ) < 2 ∧ (1 : ℕ) < 1 * 3 ∧ 1 * 3 % 2 ≠ 0 ∧
      init_validate true 2 (some 1) 3 = Except.ok true) ∧
    (([5] : List ℝ).length = 1 ∧ normalize_advantages true [5] = [5]) :=
  ⟨⟨by decide, config_validation_and_norm_skip.1 1 (some 1) 512 (by decide)⟩,
   ⟨by decide, by decide, config_validation_and_norm_skip.2.1 2 1 1 (by decide) (by decide)⟩,
   ⟨by decide, by decide, by decide,
     config_validation_and_norm_skip.2.2.1 2 1 3 (by decide) (by decide) (by decide)⟩,
   ⟨rfl, config_validation_and_norm_skip.2.2.2 true [5] rfl⟩⟩

/-- Zipping a list with itself is mapping the diagonal. -/
theorem zipWith_self_map {α β : Type} (f : α → α → β) :
    ∀ l : List α, List.zipWith f l l = l.map (fun a => f a a) := by
  intro l
  induction l with
  | nil => rfl
  | cons a tl ih => simp [ih]

/-- Each diagonal anchor-gap row sums to zero. -/
theorem sum_zipWith_gap_self (l : List ℝ) :
    (List.zipWith (fun x y => Real.exp x * (x - y)) l l).sum = 0 := by
  induction l with
  | nil => rfl
  | cons a tl ih => simp [ih]

/-- Summing a constant over a list multiplies it by the length. -/
theorem list_sum_map_const {α : Type} (l : List α) (A : ℕ) :
    (l.map (fun _ => A)).sum = l.length * A := by
  induction l with
  | nil => simp
  | cons a tl ih =>
    simp only [List.map_cons, List.sum_cons, ih, List.length_cons, add_one_mul]
    exact Nat.add_comm A (tl.length * A)

/-- Counterexample to claim C3 as stated: with one sampled state and two
actions (anchor log-probabilities 0, current log-probabilities -1), the code
averages over all state/action tensor entries and yields 1, while the
claimed mean-over-states of the action sums yields 2. -/
theorem anchor_penalty_not_action_sum_mean :
    anchor_policy_kl_div (some apTwo) currTwo [0]
      ≠ spec_anchor_penalty apTwo currTwo [0] := by
  simp [anchor_policy_kl_div, tensorMean2, spec_anchor_penalty, apTwo, currTwo,
    Real.exp_zero]

/-- Claim C3, amended: the penalty is exactly zero with no anchor; it is
exactly zero (in exact arithmetic) when anchor and current policy coincide;
and with an anchor set it equals the spec formula (mean over sampled states
of the action sums) divided by the number of actions, because `th.mean`
averages over all entries of the state-by-action tensor. -/
theorem anchor_penalty_characterization :
    (∀ (curr : PolicyFn) (ss : List ℕ), anchor_policy_kl_div none curr ss = 0) ∧
    (∀ (ap : PolicyFn) (ss : List ℕ), anchor_policy_kl_div (some ap) ap ss = 0) ∧
    (∀ (ap curr : PolicyFn) (ss : List ℕ) (A : ℕ),
        (∀ st ∈ ss, (ap st).length = A) → (∀ st ∈ ss, (curr st).length = A) →
        anchor_policy_kl_div (some ap) curr ss
          = spec_anchor_penalty ap curr ss / (A : ℝ)) := by
  refine ⟨fun curr ss => rfl, fun ap ss => ?_, fun ap curr ss A hap hcurr => ?_⟩
  · show tensorMean2 (List.zipWith
        (fun la lc => List.zipWith (fun a c => Real.exp a * (a - c)) la lc)
        (ss.map ap) (ss.map ap)) = 0
    rw [zipWith_self_map]
    unfold tensorMean2
    rw [List.sum_flatten, List.map_map]
    have h0 : ∀ x ∈ List.map (List.sum ∘ fun la =>
        List.zipWith (fun a c => Real.exp a * (a - c)) la la) (ss.map ap),
        x = 0 := by
      intro x hx
      rcases List.mem_map.mp hx with ⟨la, hla, hxeq⟩
      rw [← hxeq]
      exact sum_zipWith_gap_self la
    rw [List.sum_eq_zero h0, zero_div]
  · show tensorMean2 (List.zipWith
        (fun la lc => List.zipWith (fun a c => Real.exp a * (a - c)) la lc)
        (ss.map ap) (ss.map curr)) = spec_anchor_penalty ap curr ss / (A : ℝ)
    have hrows : List.zipWith
        (fun la lc => List.zipWith (fun a c => Real.exp a * (a - c)) la lc)
        (ss.map ap) (ss.map curr)
        = ss.map (fun st =>
            List.zipWith (fun a c => Real.exp a * (a - c)) (ap st) (curr st)) := by
      induction ss with
      | nil => rfl
      | cons st tl ih => simp [ih]
    rw [hrows]
    unfold tensorMean2 spec_anchor_penalty
    rw [List.sum_flatten, List.length_flatten, List.map_map, List.map_map]
    have hc : ∀ st ∈ ss, (List.length ∘ fun st =>
        List.zipWith (fun a c => Real.exp a * (a - c)) (ap st) (curr st)) st
          = (fun _ : ℕ => A) st := by
      intro st hst
      show (List.zipWith (fun a c => Real.exp a * (a - c)) (ap st) (curr st)).length = A
      rw [List.length_zipWith, hap st hst, hcurr st hst, min_self]
    rw [List.map_congr_left hc, list_sum_map_const, div_div]
    have hnum : List.map (List.sum ∘ fun st =>
        List.zipWith (fun a c => Real.exp a * (a - c)) (ap st) (curr st)) ss
          = List.map (fun st =>
        (List.zipWith (fun a c => Real.exp a * (a - c)) (ap st) (curr st)).sum) ss := rfl
    rw [hnum]
    push_cast
    rfl

/-- Witness for anchor_penalty_characterization on the concrete two-action
policies. -/
theorem anchor_penalty_characterization_witness :
    anchor_policy_kl_div none currTwo [0] = 0 ∧
    anchor_policy_kl_div (some apTwo) apTwo [0] = 0 ∧
    anchor_policy_kl_div (some apTwo) currTwo [0]
      = spec_anchor_penalty apTwo currTwo [0] / (2 : ℝ) :=
  ⟨anchor_penalty_characterization.1 currTwo [0],
   anchor_penalty_characterization.2.1 apTwo [0],
   anchor_penalty_characterization.2.2 apTwo currTwo [0] 2
     (by intro st _; rfl) (by intro st _; rfl)⟩
